import Mathlib

/-!
Verification development for the SmartSortierer document pipeline
(`services/smartsortierer` in the repository).  Python source files are
shallowly embedded as executable Lean definitions: the storage sandbox
(`api/app/services/storage.py`), the Redis-backed job queue
(`api/app/services/queue.py`), the ingest endpoint (`api/app/api/docs.py`),
the rules engine and LLM classifier (`worker/app/services/`), and the four
worker stage handlers (`worker/handlers/`).  Machine integers are modelled
as `Int`/`Nat` (none of the embedded code overflows), Python `float`
confidence values as `Rat` (the code only manipulates exact decimal
literals), byte strings as `List Nat`, and fallible code as
`Except`/`Option`.
-/

/- ===================================================================
   Shared string / list utilities used by several embedded modules.
   =================================================================== -/

/-- Index of the first occurrence of `pat` in `s` (Python `str.find` /
the `in` operator on the character level).  `none` when absent. -/
def findSub (pat : List Char) : List Char → Option Nat
  | [] => if pat = [] then some 0 else none
  | c :: tl =>
    if pat.isPrefixOf (c :: tl) then some 0
    else (findSub pat tl).map (· + 1)

/-- Python substring containment `pat in hay` on character lists. -/
def containsSub (hay pat : List Char) : Bool :=
  (findSub pat hay).isSome

/-- Python `needle in hay` for strings. -/
def strContains (hay needle : String) : Bool :=
  containsSub hay.toList needle.toList

/-- ASCII lower-casing of a string; embeds Python `str.lower()` for the
ASCII inputs (mime types, file suffixes) the code applies it to. -/
def asciiLower (s : String) : String :=
  String.mk (s.toList.map Char.toLower)

/-- Whitespace characters recognised by Python `str.strip()`/`str.split()`. -/
def isPyWS (c : Char) : Bool :=
  c = ' ' || c = '\t' || c = '\n' || c = '\r' || c = '\x0b' || c = '\x0c'

/-- Python `str.strip()` on a character list. -/
def pyStrip (s : List Char) : List Char :=
  ((s.dropWhile isPyWS).reverse.dropWhile isPyWS).reverse

/-- Number of maximal non-whitespace runs: `len(s.split())` in Python. -/
def countWords (s : List Char) : Nat :=
  (s.foldl
    (fun (acc : Nat × Bool) c =>
      if isPyWS c then (acc.1, false)
      else if acc.2 then acc else (acc.1 + 1, true))
    (0, false)).1

/-- Splitting on a fixed non-empty separator, left to right and
non-overlapping: Python `str.split(sep)`.  `fuel` bounds the recursion;
callers pass the length of the input, which suffices because every
recursive call strictly shrinks the text. -/
def splitOnSepAux (sep : List Char) : Nat → List Char → List (List Char)
  | _, [] => [[]]
  | 0, s => [s]
  | Nat.succ fuel, c :: cs =>
    if sep ≠ [] ∧ sep.isPrefixOf (c :: cs) then
      [] :: splitOnSepAux sep fuel ((c :: cs).drop sep.length)
    else
      match splitOnSepAux sep fuel cs with
      | [] => [[c]]
      | h :: t => (c :: h) :: t

/-- Python `str.split(sep)` for a non-empty separator. -/
def splitOnSep (sep s : List Char) : List (List Char) :=
  splitOnSepAux sep s.length s

/-- Splitting on a single character (used for path segments). -/
def splitOnChar (c : Char) : List Char → List (List Char)
  | [] => [[]]
  | x :: xs =>
    if x = c then [] :: splitOnChar c xs
    else
      match splitOnChar c xs with
      | [] => [[x]]
      | h :: t => (x :: h) :: t

/-- Whether `pre` is a prefix of `s` (Python `str.startswith`). -/
def strStartsWith (s pre : String) : Bool :=
  pre.toList.isPrefixOf s.toList

/-- Python `sep.join(parts)`. -/
def joinSep (sep : List Char) : List (List Char) → List Char
  | [] => []
  | [p] => p
  | p :: ps => p ++ sep ++ joinSep sep ps

/- ===================================================================
   Storage sandbox — `api/app/services/storage.py`.

   Filesystem paths are modelled as lists of path segments.  The
   canonicalisation performed by `pathlib.Path.resolve()` (elimination of
   `.`/`..` and symlink indirection, producing an absolute canonical
   path) is an operating-system service; it enters the model as an
   explicit `resolve` function argument.  `Path.relative_to` succeeds
   exactly when the root's segment list is a prefix of the resolved
   segment list, which is the containment check `safe_join` performs.
   =================================================================== -/

/-- Split a relative path string into its segments, dropping empty
segments the way `pathlib` does. -/
def parseSegments (s : String) : List String :=
  ((splitOnChar '/' s.toList).map String.mk).filter (fun seg => seg ≠ "")

/-- Whether a path string is absolute; `root / relpath` in `pathlib`
discards `root` when `relpath` is absolute. -/
def isAbsolutePath (s : String) : Bool :=
  strStartsWith s "/"

/-- Result of `self.storage_root / relpath` before resolution. -/
def joinedPath (storage_root : List String) (relpath : String) : List String :=
  if isAbsolutePath relpath then parseSegments relpath
  else storage_root ++ parseSegments relpath

/-- Error taxonomy of `storage.py`: `PathTraversalError` is a subclass of
`StorageError`; other storage failures carry a message. -/
inductive StorageErr where
  | pathTraversal (relpath : String)
  | storageError (msg : String)
deriving Repr, DecidableEq

/-- Embeds `StorageService.safe_join`: joins the relative path onto the
storage root, canonicalises via `resolve`, and accepts the result only
when the storage root is a prefix of the canonical path (the
`full_path.relative_to(self.storage_root)` check). -/
def safe_join (resolve : List String → List String)
    (storage_root : List String) (relpath : String) :
    Except StorageErr (List String) :=
  let full_path := resolve (joinedPath storage_root relpath)
  if storage_root.isPrefixOf full_path then Except.ok full_path
  else Except.error (StorageErr.pathTraversal relpath)

/-- Primitive filesystem effects over an abstract filesystem state `σ`.
Each field is the opaque syscall the storage service invokes after its
sandbox check; the storage operations below are defined over this
interface so that their control flow — in particular the position of the
`safe_join` check — is the only thing the embedding fixes. -/
structure FsOps (σ : Type) where
  pathPresent : σ → List String → Bool
  entryIsFile : σ → List String → Bool
  entryIsDir : σ → List String → Bool
  mkdirParents : σ → List String → σ
  writeBytes : σ → List String → List Nat → σ
  moveEntry : σ → List String → List String → σ
  copyEntry : σ → List String → List String → σ
  unlinkFile : σ → List String → σ
  removeTree : σ → List String → σ
  readBytes : σ → List String → List Nat
  listEntries : σ → List String → List String

/-- Embeds `StorageService.list_directory` (read-only; the metadata dict
per entry is elided, the entry names are returned). -/
def list_directory {σ : Type} (F : FsOps σ) (resolve : List String → List String)
    (storage_root : List String) (fs : σ) (relpath : String) :
    Except StorageErr (List String) :=
  match safe_join resolve storage_root relpath with
  | Except.error e => Except.error e
  | Except.ok abs_path =>
    if ¬ F.pathPresent fs abs_path then
      Except.error (StorageErr.storageError ("Path does not exist: " ++ relpath))
    else if ¬ F.entryIsDir fs abs_path then
      Except.error (StorageErr.storageError ("Path is not a directory: " ++ relpath))
    else Except.ok (F.listEntries fs abs_path)

/-- Embeds `StorageService.stat` (read-only; returns the resolved path in
place of the metadata dictionary, which is derived from read-only
`stat` syscalls). -/
def stat_file {σ : Type} (F : FsOps σ) (resolve : List String → List String)
    (storage_root : List String) (fs : σ) (relpath : String) :
    Except StorageErr (List String) :=
  match safe_join resolve storage_root relpath with
  | Except.error e => Except.error e
  | Except.ok abs_path =>
    if ¬ F.pathPresent fs abs_path then
      Except.error (StorageErr.storageError ("Path does not exist: " ++ relpath))
    else Except.ok abs_path

/-- Embeds `StorageService.read_file` (read-only: opens the file and
returns its contents). -/
def read_file {σ : Type} (F : FsOps σ) (resolve : List String → List String)
    (storage_root : List String) (fs : σ) (relpath : String) :
    Except StorageErr (List Nat) :=
  match safe_join resolve storage_root relpath with
  | Except.error e => Except.error e
  | Except.ok abs_path =>
    if ¬ F.pathPresent fs abs_path then
      Except.error (StorageErr.storageError ("File does not exist: " ++ relpath))
    else if ¬ F.entryIsFile fs abs_path then
      Except.error (StorageErr.storageError ("Path is not a file: " ++ relpath))
    else Except.ok (F.readBytes fs abs_path)

/-- Embeds `StorageService.compute_sha256` (read-only): streams the file
through a SHA-256 digest.  The digest function itself is pure and passed
in as `sha256hex`. -/
def compute_sha256 {σ : Type} (F : FsOps σ) (resolve : List String → List String)
    (sha256hex : List Nat → String)
    (storage_root : List String) (fs : σ) (relpath : String) :
    Except StorageErr String :=
  match safe_join resolve storage_root relpath with
  | Except.error e => Except.error e
  | Except.ok abs_path =>
    if ¬ F.pathPresent fs abs_path ∨ ¬ F.entryIsFile fs abs_path then
      Except.error (StorageErr.storageError ("File does not exist: " ++ relpath))
    else Except.ok (sha256hex (F.readBytes fs abs_path))

/-- Embeds `StorageService.write_file`: sandbox check, existing-file
check against `overwrite`, parent-directory creation, then the write.
The final `self.stat(relpath)` call is read-only and elided. -/
def write_file {σ : Type} (F : FsOps σ) (resolve : List String → List String)
    (storage_root : List String) (fs : σ) (relpath : String)
    (content : List Nat) (overwrite : Bool) : Except StorageErr σ :=
  match safe_join resolve storage_root relpath with
  | Except.error e => Except.error e
  | Except.ok abs_path =>
    if F.pathPresent fs abs_path ∧ ¬ overwrite then
      Except.error (StorageErr.storageError ("File already exists: " ++ relpath))
    else
      let fs1 := F.mkdirParents fs abs_path
      Except.ok (F.writeBytes fs1 abs_path content)

/-- Embeds `StorageService.move_file`: both paths are sandbox-checked
before any filesystem syscall runs. -/
def move_file {σ : Type} (F : FsOps σ) (resolve : List String → List String)
    (storage_root : List String) (fs : σ)
    (src_relpath dest_relpath : String) (overwrite : Bool) :
    Except StorageErr σ :=
  match safe_join resolve storage_root src_relpath with
  | Except.error e => Except.error e
  | Except.ok src_abs =>
    match safe_join resolve storage_root dest_relpath with
    | Except.error e => Except.error e
    | Except.ok dest_abs =>
      if ¬ F.pathPresent fs src_abs then
        Except.error (StorageErr.storageError ("Source does not exist: " ++ src_relpath))
      else if F.pathPresent fs dest_abs ∧ ¬ overwrite then
        Except.error (StorageErr.storageError ("Destination already exists: " ++ dest_relpath))
      else
        let fs1 := F.mkdirParents fs dest_abs
        Except.ok (F.moveEntry fs1 src_abs dest_abs)

/-- Embeds `StorageService.copy_file`. -/
def copy_file {σ : Type} (F : FsOps σ) (resolve : List String → List String)
    (storage_root : List String) (fs : σ)
    (src_relpath dest_relpath : String) (overwrite : Bool) :
    Except StorageErr σ :=
  match safe_join resolve storage_root src_relpath with
  | Except.error e => Except.error e
  | Except.ok src_abs =>
    match safe_join resolve storage_root dest_relpath with
    | Except.error e => Except.error e
    | Except.ok dest_abs =>
      if ¬ F.pathPresent fs src_abs then
        Except.error (StorageErr.storageError ("Source does not exist: " ++ src_relpath))
      else if ¬ F.entryIsFile fs src_abs then
        Except.error (StorageErr.storageError ("Source is not a file: " ++ src_relpath))
      else if F.pathPresent fs dest_abs ∧ ¬ overwrite then
        Except.error (StorageErr.storageError ("Destination already exists: " ++ dest_relpath))
      else
        let fs1 := F.mkdirParents fs dest_abs
        Except.ok (F.copyEntry fs1 src_abs dest_abs)

/-- Embeds `StorageService.delete_file`. -/
def delete_file {σ : Type} (F : FsOps σ) (resolve : List String → List String)
    (storage_root : List String) (fs : σ) (relpath : String) :
    Except StorageErr σ :=
  match safe_join resolve storage_root relpath with
  | Except.error e => Except.error e
  | Except.ok abs_path =>
    if ¬ F.pathPresent fs abs_path then
      Except.error (StorageErr.storageError ("Path does not exist: " ++ relpath))
    else if F.entryIsFile fs abs_path then
      Except.ok (F.unlinkFile fs abs_path)
    else if F.entryIsDir fs abs_path then
      Except.ok (F.removeTree fs abs_path)
    else Except.ok fs

/- ===================================================================
   Job queue — `api/app/services/queue.py`.

   The queue is a Redis sorted set (`zadd` / `bzpopmin`) whose members
   are the `json.dumps` serialisations of the job dictionaries and whose
   scores are the numeric priorities, plus a per-job hash keyed by job id
   for status lookup.  Redis orders sorted-set elements by score and, for
   equal scores, by the lexicographic byte order of the member string;
   the members here are ASCII, for which Lean's `String` order coincides
   with byte order.  Job ids (`uuid.uuid4()`) and timestamps
   (`datetime.utcnow()`) are environment inputs and enter `enqueue` as
   arguments.
   =================================================================== -/

/-- One element of the Redis sorted set: a member string and its score. -/
structure ZEntry where
  member : String
  score : Int
deriving Repr, DecidableEq

/-- Embeds Redis `ZADD key {member: score}`: updates the score when the
member is already present, otherwise adds the member. -/
def zadd (q : List ZEntry) (member : String) (score : Int) : List ZEntry :=
  if q.any (fun e => e.member = member) then
    q.map (fun e => if e.member = member then { e with score := score } else e)
  else q ++ [{ member := member, score := score }]

/-- Lexicographic comparison of character lists by code point; for the
ASCII members the queue serialises this is exactly the binary `memcmp`
order Redis uses on sorted-set members with equal scores. -/
def charListLt : List Char → List Char → Bool
  | [], [] => false
  | [], _ :: _ => true
  | _ :: _, [] => false
  | a :: as, b :: bs =>
    if a.toNat < b.toNat then true
    else if b.toNat < a.toNat then false
    else charListLt as bs

/-- Redis sorted-set element order: by score, ties by lexicographic
member comparison. -/
def zBefore (a b : ZEntry) : Bool :=
  a.score < b.score ∨ (a.score = b.score ∧ charListLt a.member.toList b.member.toList = true)

/-- The minimal element of the sorted set (what `BZPOPMIN` pops). -/
def zminEntry : List ZEntry → Option ZEntry
  | [] => none
  | e :: es => some (es.foldl (fun m x => if zBefore x m then x else m) e)

/-- Removal of a member from the sorted set. -/
def zremMember (q : List ZEntry) (m : String) : List ZEntry :=
  q.filter (fun e => e.member ≠ m)

/-- Embeds Redis `BZPOPMIN` (the non-timeout case): pops the minimal
element.  An empty set is the timeout case and yields `none`. -/
def bzpopmin (q : List ZEntry) : Option (ZEntry × List ZEntry) :=
  match zminEntry q with
  | none => none
  | some e => some (e, zremMember q e.member)

/-- Rendering of a JSON string literal; the ids, type tags and
timestamps the queue serialises contain no characters that
`json.dumps` escapes. -/
def jsonStr (s : String) : String :=
  "\"" ++ s ++ "\""

/-- Rendering of the optional `document_id` field (`json.dumps(None)`
is `null`). -/
def jsonOptInt : Option Int → String
  | none => "null"
  | some d => toString d

/-- The member string `json.dumps(job_data)` built by `JobQueue.enqueue`:
the job dictionary's keys in insertion order with the default
`json.dumps` separators.  `payloadJson` is the already-serialised
payload dictionary. -/
def jobMember (job_id job_type payloadJson : String) (priority : Int)
    (document_id : Option Int) (created_at : String) : String :=
  "\x7b\"job_id\": " ++ jsonStr job_id ++
  ", \"job_type\": " ++ jsonStr job_type ++
  ", \"payload\": " ++ payloadJson ++
  ", \"priority\": " ++ toString priority ++
  ", \"document_id\": " ++ jsonOptInt document_id ++
  ", \"created_at\": " ++ jsonStr created_at ++
  ", \"status\": \"PENDING\"\x7d"

/-- The per-job Redis hash `smartsortierer:job:<id>`: the serialised job
data plus the mutable status field (and terminal result/error). -/
structure JobHash where
  dataJson : String
  status : String
  result : Option String
  error : Option String
deriving Repr, DecidableEq

/-- Queue state: the shared sorted set plus the job-id-keyed hashes. -/
structure QueueState where
  zset : List ZEntry
  jobs : List (String × JobHash)
deriving Repr, DecidableEq

/-- The empty queue backend. -/
def emptyQueue : QueueState :=
  { zset := [], jobs := [] }

/-- Insert-or-replace on the job-hash store (`HSET` with a fresh key or
an existing one). -/
def upsertJob (jobs : List (String × JobHash)) (job_id : String)
    (h : JobHash) : List (String × JobHash) :=
  if jobs.any (fun p => p.1 = job_id) then
    jobs.map (fun p => if p.1 = job_id then (job_id, h) else p)
  else jobs ++ [(job_id, h)]

/-- Status update on one job hash (`HSET ... status <s>`). -/
def setJobStatus (jobs : List (String × JobHash)) (job_id status : String) :
    List (String × JobHash) :=
  jobs.map (fun p => if p.1 = job_id then (p.1, { p.2 with status := status }) else p)

/-- Lookup in the job-hash store. -/
def lookupJob (jobs : List (String × JobHash)) (job_id : String) :
    Option JobHash :=
  (jobs.find? (fun p => p.1 = job_id)).map Prod.snd

/-- Embeds `JobQueue.enqueue`: builds the job dictionary, `ZADD`s its
serialisation with the priority as score, and records the hash entry
with status PENDING.  The generated UUID and timestamp are inputs. -/
def enqueue (st : QueueState) (job_id job_type payloadJson : String)
    (priority : Int) (document_id : Option Int) (created_at : String) :
    QueueState :=
  let member := jobMember job_id job_type payloadJson priority document_id created_at
  { zset := zadd st.zset member priority
    jobs := upsertJob st.jobs job_id
      { dataJson := member, status := "PENDING", result := none, error := none } }

/-- Recovers `json.loads(member)["job_id"]` for members produced by
`jobMember`: the text between the opening `{"job_id": "` (12 characters)
and the closing quote. -/
def extractJobId (member : String) : String :=
  String.mk ((member.toList.drop 12).takeWhile (fun c => c ≠ '"'))

/-- Recovers `json.loads(member)["payload"]["depends_on"]` for members
whose payload carries a `depends_on` entry serialised as
`"depends_on": "<id>"`. -/
def dependsOnOf (member : String) : Option String :=
  let pat := "\"depends_on\": \"".toList
  match findSub pat member.toList with
  | none => none
  | some i =>
    some (String.mk ((member.toList.drop (i + pat.length)).takeWhile (fun c => c ≠ '"')))

/-- Embeds `JobQueue.dequeue` (the non-timeout case): `BZPOPMIN` on the
sorted set, then the popped job's hash status is set to RUNNING.  The
popped entry's member is `json.dumps(job_data)`; its score is the
priority. -/
def dequeue (st : QueueState) : Option (ZEntry × QueueState) :=
  match bzpopmin st.zset with
  | none => none
  | some (e, z) =>
    let job_id := extractJobId e.member
    some (e, { zset := z, jobs := setJobStatus st.jobs job_id "RUNNING" })

/-- Embeds `JobQueue.complete_job`. -/
def complete_job (st : QueueState) (job_id : String) (result : Option String) :
    QueueState :=
  { st with jobs := st.jobs.map (fun p =>
      if p.1 = job_id then
        (p.1, { p.2 with status := "COMPLETED", result := result })
      else p) }

/-- Embeds `JobQueue.fail_job`. -/
def fail_job (st : QueueState) (job_id : String) (error : String) :
    QueueState :=
  { st with jobs := st.jobs.map (fun p =>
      if p.1 = job_id then
        (p.1, { p.2 with status := "FAILED", error := some error })
      else p) }

/-- Status of a job as seen by `JobQueue.get_job_status`. -/
def jobStatusOf (st : QueueState) (job_id : String) : Option String :=
  (lookupJob st.jobs job_id).map JobHash.status

/- ===================================================================
   Document data model — `api/app/models/document.py`.
   =================================================================== -/

/-- The `DocStatus` lifecycle enumeration. -/
inductive DocStatus where
  | INGESTED
  | ANALYZING
  | ANALYZED
  | NEEDS_REVIEW
  | APPROVED
  | COMMITTED
  | ERROR
  | DUPLICATE
deriving Repr, DecidableEq

/-- Classification trace stored in `Document.llm_trace`; only the fields
the embedded handlers write are modelled. -/
structure TraceInfo where
  method : String
  rule_id : Option Int
  rule_name : Option String
deriving Repr, DecidableEq

/-- The `documents` table row, restricted to the columns the embedded
code reads or writes.  Nullable columns are `Option`; `Float`
confidence is `Rat`. -/
structure Document where
  id : Int
  file_sha256 : String
  original_filename : String
  mime_type : Option String
  file_size_bytes : Option Int
  inbox_relpath : Option String
  ingested_relpath : Option String
  status : DocStatus
  extracted_text : Option String
  page_count : Option Nat
  category : Option String
  suggested_filename : Option String
  suggested_target_path : Option String
  classification_confidence : Option Rat
  llm_trace : Option TraceInfo
deriving Repr, DecidableEq

/-- The `document_chunks` table row (columns the chunking and embedding
handlers touch). -/
structure DocumentChunk where
  document_id : Int
  chunk_index : Nat
  chunk_text : String
  chunk_tokens : Nat
  qdrant_point_id : Option String
deriving Repr, DecidableEq

/-- The relational store as the handlers see it: documents and chunks. -/
structure Db where
  docs : List Document
  chunks : List DocumentChunk
deriving Repr, DecidableEq

/-- The query `db.query(Document).filter(Document.id == id).first()`. -/
def findDoc (db : Db) (document_id : Int) : Option Document :=
  db.docs.find? (fun d => d.id = document_id)

/-- Replacement of a document row on commit. -/
def updateDoc (db : Db) (doc : Document) : Db :=
  { db with docs := db.docs.map (fun d => if d.id = doc.id then doc else d) }

/-- Chunks belonging to one document, in table order. -/
def chunksOf (db : Db) (document_id : Int) : List DocumentChunk :=
  db.chunks.filter (fun c => c.document_id = document_id)

/-- Python truthiness of an optional string (`None` and `""` are falsy). -/
def strTruthy : Option String → Bool
  | none => false
  | some s => s ≠ ""

/-- Python truthiness of an optional integer (`None` and `0` are falsy). -/
def intTruthy : Option Int → Bool
  | none => false
  | some n => n ≠ 0

/- ===================================================================
   Ingest endpoint — `api/app/api/docs.py`, `ingest_document`.

   The storage-service results that feed the endpoint (the computed
   SHA-256, the `stat` metadata of the inbox file, and whether the
   content-addressed destination already exists so that
   `copy_file(..., overwrite=False)` raises) are environment inputs.
   The `documents.file_sha256` UNIQUE constraint makes `db.commit()`
   raise `IntegrityError` when a row with the same hash exists; the
   generic `except Exception` handler rolls back and returns HTTP 500.
   =================================================================== -/

/-- Outcome of the ingest endpoint: a normal response or an
`HTTPException` with a status code. -/
inductive IngestOutcome where
  | ok (document_id : Option Int) (status : String) (is_duplicate : Bool)
      (duplicate_of : Option Int) (sha256 : String)
  | httpError (code : Nat)
deriving Repr, DecidableEq

/-- State touched by ingest: the relational store plus the queue backend. -/
structure ApiState where
  db : Db
  queue : QueueState
deriving Repr, DecidableEq

/-- Embeds `ingest_document`.  `sha256R` is the result of
`storage.compute_sha256(inbox_path)`; `statName`/`statSize`/`statMime`
the result of `storage.stat`; `destPresent` indicates whether the
content-addressed copy destination already exists (making
`copy_file` with `overwrite=False` raise `StorageError`); `newId` is the
id the database assigns to an inserted row; `jobIds` and `now` are the
four generated job UUIDs and the shared timestamp. -/
def ingest_document (st : ApiState) (inbox_path : String)
    (skip_duplicate_check : Bool)
    (sha256R : Except StorageErr String)
    (statName : String) (statSize : Option Int) (statMime : Option String)
    (destPresent : Bool) (newId : Int)
    (jobIds : String × String × String × String) (now : String) :
    IngestOutcome × ApiState :=
  if ¬ strStartsWith inbox_path "00_inbox/" then
    (IngestOutcome.httpError 403, st)
  else
    match sha256R with
    | Except.error _ => (IngestOutcome.httpError 404, st)
    | Except.ok sha =>
      let existing := st.db.docs.find? (fun d => d.file_sha256 = sha)
      match existing with
      | some doc =>
        if ¬ skip_duplicate_check then
          (IngestOutcome.ok (some doc.id) "DUPLICATE" true (some doc.id) sha, st)
        else if destPresent then
          -- copy_file(..., overwrite=False) raises StorageError → HTTP 404
          (IngestOutcome.httpError 404, st)
        else
          -- the inserted row's hash equals `doc`'s, so db.commit()
          -- violates the UNIQUE(file_sha256) constraint:
          -- IntegrityError → rollback (row discarded) → HTTP 500
          (IngestOutcome.httpError 500, st)
      | none =>
        if destPresent then
          (IngestOutcome.httpError 404, st)
        else
          let ingested_path := "01_ingested/" ++ sha ++ "_" ++ statName
          let document : Document :=
            { id := newId
              file_sha256 := sha
              original_filename := statName
              mime_type := statMime
              file_size_bytes := statSize
              inbox_relpath := some inbox_path
              ingested_relpath := some ingested_path
              status := DocStatus.INGESTED
              extracted_text := none
              page_count := none
              category := none
              suggested_filename := none
              suggested_target_path := none
              classification_confidence := none
              llm_trace := none }
          let db1 : Db := { st.db with docs := st.db.docs ++ [document] }
          let extractPayload :=
            "\x7b\"document_id\": " ++ toString newId ++
            ", \"file_path\": " ++ jsonStr ingested_path ++
            ", \"mime_type\": " ++ (match statMime with
              | some m => jsonStr m
              | none => "null") ++ "\x7d"
          let depPayload := fun (dep : String) =>
            "\x7b\"document_id\": " ++ toString newId ++
            ", \"depends_on\": " ++ jsonStr dep ++ "\x7d"
          let q1 := enqueue st.queue jobIds.1 "extract_text" extractPayload 50
            (some newId) now
          let q2 := enqueue q1 jobIds.2.1 "chunk_text" (depPayload jobIds.1) 100
            (some newId) now
          let q3 := enqueue q2 jobIds.2.2.1 "embed_chunks" (depPayload jobIds.2.1) 150
            (some newId) now
          let q4 := enqueue q3 jobIds.2.2.2 "classify_document" (depPayload jobIds.2.2.1)
            200 (some newId) now
          (IngestOutcome.ok (some newId) "INGESTED" false none sha,
           { db := db1, queue := q4 })

/- ===================================================================
   Rules engine — `worker/app/services/rules_engine.py`.

   Rules live in the `rules` table; `get_active_rules` selects the
   active ones ordered by ascending priority.  `evaluate_rule` passes
   each key of the conditions dictionary to `evaluate_condition` as a
   one-key dictionary, so conditions are modelled as a list of typed
   one-key predicates.  Regular-expression search
   (`re.search(pattern, filename, re.IGNORECASE)`) is an external
   library call and enters the model as the `regexSearch` argument.
   =================================================================== -/

/-- One key of a rule's `conditions` JSONB dictionary. -/
inductive Cond where
  | filename_regex (pattern : String)
  | mime_type (value : String)
  | mime_type_contains (value : String)
  | file_size_min (value : Int)
  | file_size_max (value : Int)
  | text_contains (value : String)
deriving Repr, DecidableEq

/-- The `actions` JSONB dictionary of a rule. -/
structure Actions where
  category : Option String
  target_path : Option String
  suggested_filename : Option String
  tags : Option (List String)
deriving Repr, DecidableEq

/-- A `rules` table row. -/
structure Rule where
  id : Int
  name : String
  priority : Int
  is_active : Bool
  conditions : List Cond
  actions : Actions
deriving Repr, DecidableEq

/-- Embeds `RulesEngine.evaluate_condition` for a one-key condition
dictionary.  `regexSearch pattern text` stands for
`re.search(pattern, text, re.IGNORECASE) is not None`. -/
def evaluate_condition (regexSearch : String → String → Bool)
    (doc : Document) : Cond → Bool
  | Cond.filename_regex pattern => regexSearch pattern doc.original_filename
  | Cond.mime_type value => doc.mime_type = some value
  | Cond.mime_type_contains value =>
    if ¬ strTruthy doc.mime_type then false
    else strContains (asciiLower (doc.mime_type.getD "")) (asciiLower value)
  | Cond.file_size_min value =>
    if ¬ intTruthy doc.file_size_bytes then false
    else ¬ doc.file_size_bytes.getD 0 < value
  | Cond.file_size_max value =>
    if ¬ intTruthy doc.file_size_bytes then false
    else ¬ value < doc.file_size_bytes.getD 0
  | Cond.text_contains value =>
    if ¬ strTruthy doc.extracted_text then false
    else strContains (asciiLower (doc.extracted_text.getD "")) (asciiLower value)

/-- Embeds `RulesEngine.evaluate_rule`: AND over all condition keys;
an empty conditions dictionary matches everything. -/
def evaluate_rule (regexSearch : String → String → Bool)
    (doc : Document) (rule : Rule) : Bool :=
  rule.conditions.all (evaluate_condition regexSearch doc)

/-- Embeds `RulesEngine.get_active_rules`: `WHERE is_active = TRUE ORDER
BY priority ASC`. -/
def get_active_rules (rules : List Rule) : List Rule :=
  List.insertionSort (fun a b => a.priority ≤ b.priority)
    (rules.filter (fun r => r.is_active))

/-- The changes dictionary returned by `RulesEngine.apply_actions`. -/
structure Changes where
  category : Option String
  target_path : Option String
  suggested_filename : Option String
  tags : Option (List String)
deriving Repr, DecidableEq

/-- Embeds `RulesEngine.apply_actions`: assigns the action fields onto
the document and reports the applied changes. -/
def apply_actions (doc : Document) (actions : Actions) : Document × Changes :=
  let doc := match actions.category with
    | some c => { doc with category := some c }
    | none => doc
  let doc := match actions.target_path with
    | some t => { doc with suggested_target_path := some t }
    | none => doc
  let doc := match actions.suggested_filename with
    | some f => { doc with suggested_filename := some f }
    | none => doc
  (doc,
   { category := actions.category
     target_path := actions.target_path
     suggested_filename := actions.suggested_filename
     tags := actions.tags })

/-- The dictionary `RulesEngine.classify_document` returns on a match. -/
structure RuleMatch where
  rule_id : Int
  rule_name : String
  priority : Int
  changes : Changes
deriving Repr, DecidableEq

/-- Evaluation loop of `RulesEngine.classify_document` over an
already-sorted rule list: first full match wins, its actions are
applied, and no further rule is examined. -/
def rules_classify_loop (regexSearch : String → String → Bool)
    (doc : Document) : List Rule → Document × Option RuleMatch
  | [] => (doc, none)
  | r :: rs =>
    if evaluate_rule regexSearch doc r then
      let applied := apply_actions doc r.actions
      (applied.1,
       some { rule_id := r.id, rule_name := r.name, priority := r.priority
              changes := applied.2 })
    else rules_classify_loop regexSearch doc rs

/-- Embeds `RulesEngine.classify_document`. -/
def rules_classify (regexSearch : String → String → Bool)
    (rules : List Rule) (doc : Document) : Document × Option RuleMatch :=
  rules_classify_loop regexSearch doc (get_active_rules rules)

/- ===================================================================
   LLM classifier — `worker/app/services/llm_classifier.py`.

   `classify` returns `None` when the availability probe failed, when
   the generate call times out or returns a non-200 status, when no JSON
   object can be extracted from the response, or when the extracted
   object lacks `category` or `confidence`.  A successful result always
   carries those two fields; the network interaction itself is the
   environment's business, so `classify`'s outcome enters the handler
   model as an `Option LlmResult`.
   =================================================================== -/

/-- A validated classification dictionary returned by
`LLMClassifier.classify`: `category` and `confidence` are present
(enforced by the required-fields check); the rest is optional. -/
structure LlmResult where
  category : String
  confidence : Rat
  suggested_filename : Option String
  target_path : Option String
deriving Repr, DecidableEq

/- ===================================================================
   Classification handler — `worker/handlers/classify_document.py`.
   =================================================================== -/

/-- Result dictionary returned by `ClassifyDocumentHandler.execute`. -/
structure ClassifyResult where
  method : String
  confidence : Rat
  category : Option String
  rule_name : Option String
deriving Repr, DecidableEq

/-- Evaluation of the attribute access `db.func` on the SQLAlchemy
session, from the statement
`document.analyzed_at = db.execute(db.query(db.func.now())).scalar()`
that every terminal branch of `ClassifyDocumentHandler.execute` runs
just before `db.commit()`.  `db` is a plain `sessionmaker` `Session`
and `Session` objects have no `func` attribute (`func` is a
module-level SQLAlchemy name), so the lookup raises `AttributeError`
deterministically. -/
def sessionFuncNow : Except String Unit :=
  Except.error "AttributeError: 'Session' object has no attribute 'func'"

/-- Embeds `ClassifyDocumentHandler.execute`.  `regexSearch` and `rules`
feed the rules engine; `llm` is the outcome of `LLMClassifier.classify`
(`none` = unavailable, timeout, non-200, or unparseable/incomplete
response).  Each terminal branch assigns its fields on the in-memory
document, then evaluates `analyzed_at` via `sessionFuncNow` — whose
`AttributeError` propagates out of the handler before `db.commit()`, so
the session is closed without committing and the store is unchanged;
the `Except.ok` arms carry the commit-and-return code that the raise
makes unreachable. -/
def classify_document_execute (regexSearch : String → String → Bool)
    (rules : List Rule) (llm : Option LlmResult)
    (db : Db) (document_id : Int) :
    Except String (Db × ClassifyResult) :=
  match findDoc db document_id with
  | none => Except.error ("Document " ++ toString document_id ++ " not found")
  | some document =>
    let evaluated := rules_classify regexSearch rules document
    match evaluated.2 with
    | some rule_result =>
      let document :=
        { evaluated.1 with
          classification_confidence := some 1
          llm_trace := some
            { method := "rules"
              rule_id := some rule_result.rule_id
              rule_name := some rule_result.rule_name }
          status := DocStatus.ANALYZED }
      match sessionFuncNow with
      | Except.error e => Except.error e
      | Except.ok _ =>
        Except.ok (updateDoc db document,
          { method := "rules", confidence := 1, category := document.category
            rule_name := some rule_result.rule_name })
    | none =>
      match llm with
      | some llm_result =>
        let confidence := llm_result.confidence
        let document :=
          { document with
            category := some llm_result.category
            suggested_filename := llm_result.suggested_filename
            suggested_target_path := llm_result.target_path
            classification_confidence := some confidence
            llm_trace := some
              { method := "llm", rule_id := none, rule_name := none }
            status := if (0.8 : Rat) ≤ confidence then DocStatus.ANALYZED
              else DocStatus.NEEDS_REVIEW }
        match sessionFuncNow with
        | Except.error e => Except.error e
        | Except.ok _ =>
          Except.ok (updateDoc db document,
            { method := "llm", confidence := confidence
              category := document.category, rule_name := none })
      | none =>
        let document := { document with status := DocStatus.NEEDS_REVIEW }
        match sessionFuncNow with
        | Except.error e => Except.error e
        | Except.ok _ =>
          Except.ok (updateDoc db document,
            { method := "none", confidence := 0, category := none
              rule_name := none })

/- ===================================================================
   Chunking handler — `worker/handlers/chunk_text.py`.
   =================================================================== -/

/-- Accumulator of the paragraph-combining loop in
`ChunkTextHandler.split_into_chunks`: finished chunks, the paragraphs of
the chunk under construction, and their accumulated length. -/
structure ChunkAcc where
  chunks : List (List Char)
  current : List (List Char)
  currentLength : Nat
deriving Repr, DecidableEq

/-- One iteration of the paragraph loop in `split_into_chunks`
(`chunk_size` is the handler's 800-character target). -/
def chunkStep (chunk_size : Nat) (acc : ChunkAcc) (para : List Char) :
    ChunkAcc :=
  let para_length := para.length
  if chunk_size < acc.currentLength + para_length ∧ acc.current ≠ [] then
    let chunks := acc.chunks ++ [joinSep ['\n', '\n'] acc.current]
    if 1 < acc.current.length then
      let last := acc.current.getLastD []
      { chunks := chunks, current := [last, para]
        currentLength := last.length + para_length }
    else
      { chunks := chunks, current := [para], currentLength := para_length }
  else
    { chunks := acc.chunks, current := acc.current ++ [para]
      currentLength := acc.currentLength + para_length }

/-- Embeds `ChunkTextHandler.split_into_chunks` (chunk target 800): text
is split into stripped non-empty paragraphs on blank lines, paragraphs
are greedily combined up to the size target with the previous chunk's
last paragraph carried over as overlap, and the remainder forms the
final chunk. -/
def split_into_chunks (text : String) : List String :=
  let cs := text.toList
  if cs = [] ∨ pyStrip cs = [] then []
  else
    let paragraphs :=
      ((splitOnSep ['\n', '\n'] cs).map pyStrip).filter (fun p => p ≠ [])
    let acc := paragraphs.foldl (chunkStep 800)
      { chunks := [], current := [], currentLength := 0 }
    let chunks :=
      if acc.current ≠ [] then acc.chunks ++ [joinSep ['\n', '\n'] acc.current]
      else acc.chunks
    chunks.map String.mk

/-- Result dictionary returned by `ChunkTextHandler.execute`. -/
structure ChunkResult where
  chunks_count : Nat
  total_chars : Nat
deriving Repr, DecidableEq

/-- Embeds `ChunkTextHandler.execute`: requires the document and a
truthy `extracted_text`, splits it, deletes every existing chunk row of
the document, inserts the new chunks with `chunk_index` from
`enumerate`, sets the document status to ANALYZING and commits. -/
def chunk_text_execute (db : Db) (document_id : Int) :
    Except String (Db × ChunkResult) :=
  match findDoc db document_id with
  | none => Except.error ("Document " ++ toString document_id ++ " not found")
  | some document =>
    if ¬ strTruthy document.extracted_text then
      Except.error ("Document " ++ toString document_id ++ " has no extracted text")
    else
      let text_chunks := split_into_chunks (document.extracted_text.getD "")
      let remaining := db.chunks.filter (fun c => c.document_id ≠ document_id)
      let newChunks := text_chunks.enum.map (fun p =>
        { document_id := document_id
          chunk_index := p.1
          chunk_text := p.2
          chunk_tokens := countWords p.2.toList
          qdrant_point_id := none : DocumentChunk })
      let document := { document with status := DocStatus.ANALYZING }
      let db1 : Db :=
        updateDoc { db with chunks := remaining ++ newChunks } document
      Except.ok (db1,
        { chunks_count := text_chunks.length
          total_chars := (text_chunks.map String.length).sum })

/- ===================================================================
   Embedding handler — `worker/handlers/embed_chunks.py`.

   `ollama_available` and `qdrant_available` record whether the `httpx`
   and `qdrant_client` imports succeeded in `__init__`; they say nothing
   about whether the services answer.  The network calls
   (`POST /api/embeddings` and the Qdrant upsert) enter the model as
   environment functions whose `Except.error` case is an unreachable or
   erroring service, which `generate_embedding`/`upsert_to_qdrant` wrap
   and re-raise. -/

/-- Environment of the embedding handler: library availability flags
fixed at construction and the behaviour of the two external services. -/
structure EmbedEnv where
  ollama_available : Bool
  qdrant_available : Bool
  ollamaEmbed : String → Except String (List Int)
  qdrantUpsert : Int → Nat → String → List Int → Except String String

/-- Embeds `EmbedChunksHandler.generate_embedding`: `[]` when the httpx
library is missing; otherwise the Ollama call, any failure of which is
re-raised as an exception. -/
def generate_embedding (env : EmbedEnv) (text : String) :
    Except String (List Int) :=
  if ¬ env.ollama_available then Except.ok []
  else
    match env.ollamaEmbed text with
    | Except.ok embedding => Except.ok embedding
    | Except.error e => Except.error ("Embedding generation failed: " ++ e)

/-- Embeds `EmbedChunksHandler.upsert_to_qdrant`: `None` when the client
library is missing or the embedding is empty; otherwise the upsert,
any failure of which is re-raised. -/
def upsert_to_qdrant (env : EmbedEnv) (document_id : Int)
    (chunk_index : Nat) (text : String) (embedding : List Int) :
    Except String (Option String) :=
  if ¬ env.qdrant_available ∨ embedding = [] then Except.ok none
  else
    match env.qdrantUpsert document_id chunk_index text embedding with
    | Except.ok point_id => Except.ok (some point_id)
    | Except.error e => Except.error ("Qdrant upsert failed: " ++ e)

/-- The per-chunk loop of `EmbedChunksHandler.execute`: embeds and
upserts each chunk, recording returned point ids and counting them.
An exception anywhere aborts the whole job. -/
def embedChunksLoop (env : EmbedEnv) (document_id : Int) :
    List DocumentChunk → Except String (List DocumentChunk × Nat)
  | [] => Except.ok ([], 0)
  | chunk :: rest =>
    match generate_embedding env chunk.chunk_text with
    | Except.error e => Except.error e
    | Except.ok embedding =>
      let step : Except String (DocumentChunk × Nat) :=
        if embedding ≠ [] then
          match upsert_to_qdrant env document_id chunk.chunk_index
              chunk.chunk_text embedding with
          | Except.error e => Except.error e
          | Except.ok (some point_id) =>
            Except.ok ({ chunk with qdrant_point_id := some point_id }, 1)
          | Except.ok none => Except.ok (chunk, 0)
        else Except.ok (chunk, 0)
      match step with
      | Except.error e => Except.error e
      | Except.ok (chunk1, n) =>
        match embedChunksLoop env document_id rest with
        | Except.error e => Except.error e
        | Except.ok (rest1, m) => Except.ok (chunk1 :: rest1, n + m)

/-- Result dictionary returned by `EmbedChunksHandler.execute`. -/
structure EmbedResult where
  embedded_count : Nat
  skipped : Bool
deriving Repr, DecidableEq

/-- Embeds `EmbedChunksHandler.execute`.  When either client library is
missing the handler skips embedding, marks the document ANALYZED and
reports success; otherwise it embeds every chunk of the document (an
exception from either service aborts the job before any commit, leaving
the store unchanged), then marks the document ANALYZED. -/
def embed_chunks_execute (env : EmbedEnv) (db : Db) (document_id : Int) :
    Except String (Db × EmbedResult) :=
  if ¬ env.ollama_available ∨ ¬ env.qdrant_available then
    let db1 := match findDoc db document_id with
      | some document => updateDoc db { document with status := DocStatus.ANALYZED }
      | none => db
    Except.ok (db1, { embedded_count := 0, skipped := true })
  else
    let chunks := List.insertionSort
      (fun a b => a.chunk_index ≤ b.chunk_index) (chunksOf db document_id)
    if chunks = [] then
      Except.error ("No chunks found for document " ++ toString document_id)
    else
      match embedChunksLoop env document_id chunks with
      | Except.error e => Except.error e
      | Except.ok (chunks1, embedded_count) =>
        let others := db.chunks.filter (fun c => c.document_id ≠ document_id)
        let db1 : Db := { db with chunks := others ++ chunks1 }
        let db2 := match findDoc db1 document_id with
          | some document =>
            updateDoc db1 { document with status := DocStatus.ANALYZED }
          | none => db1
        Except.ok (db2, { embedded_count := embedded_count, skipped := false })

/- ===================================================================
   Text extraction handler — `worker/handlers/extract_text.py`.

   `extract_from_text` opens the file as UTF-8 text and, on
   `UnicodeDecodeError`, reopens it as latin-1, which maps every byte
   value to the code point of the same value and therefore cannot fail.
   File contents are byte lists; a missing/unreadable file is the `none`
   case of the content argument (an `OSError`, which neither `except`
   clause of `extract_from_text` catches).  The UTF-8 decoder below
   follows RFC 3629 exactly as Python's strict `utf-8` codec does:
   overlong forms, surrogates and values above U+10FFFF are rejected.
   =================================================================== -/

/-- Whether a byte is a UTF-8 continuation byte (`0x80`–`0xBF`). -/
def isContByte (b : Nat) : Bool :=
  0x80 ≤ b ∧ b ≤ 0xBF

/-- Strict UTF-8 decoding of a byte list to code points; `none` is a
`UnicodeDecodeError`. -/
def utf8Decode : List Nat → Option (List Nat)
  | [] => some []
  | b0 :: rest =>
    if b0 ≤ 0x7F then
      (utf8Decode rest).map (b0 :: ·)
    else if 0xC2 ≤ b0 ∧ b0 ≤ 0xDF then
      match rest with
      | b1 :: rest1 =>
        if isContByte b1 then
          (utf8Decode rest1).map (((b0 - 0xC0) * 0x40 + (b1 - 0x80)) :: ·)
        else none
      | _ => none
    else if 0xE0 ≤ b0 ∧ b0 ≤ 0xEF then
      match rest with
      | b1 :: b2 :: rest2 =>
        let lo1 := if b0 = 0xE0 then 0xA0 else 0x80
        let hi1 := if b0 = 0xED then 0x9F else 0xBF
        if (lo1 ≤ b1 ∧ b1 ≤ hi1) ∧ isContByte b2 then
          (utf8Decode rest2).map
            (((b0 - 0xE0) * 0x1000 + (b1 - 0x80) * 0x40 + (b2 - 0x80)) :: ·)
        else none
      | _ => none
    else if 0xF0 ≤ b0 ∧ b0 ≤ 0xF4 then
      match rest with
      | b1 :: b2 :: b3 :: rest3 =>
        let lo1 := if b0 = 0xF0 then 0x90 else 0x80
        let hi1 := if b0 = 0xF4 then 0x8F else 0xBF
        if (lo1 ≤ b1 ∧ b1 ≤ hi1) ∧ isContByte b2 ∧ isContByte b3 then
          (utf8Decode rest3).map
            (((b0 - 0xF0) * 0x40000 + (b1 - 0x80) * 0x1000 +
             (b2 - 0x80) * 0x40 + (b3 - 0x80)) :: ·)
        else none
      | _ => none
    else none

/-- String built from decoded code points. -/
def stringOfCodePoints (cps : List Nat) : String :=
  String.mk (cps.map Char.ofNat)

/-- Latin-1 decoding: every byte value 0–255 maps to the code point of
the same value; total over all byte sequences. -/
def latin1String (bytes : List Nat) : String :=
  String.mk (bytes.map (fun b => Char.ofNat (b % 256)))

/-- Embeds `ExtractTextHandler.extract_from_text`: UTF-8 decode of the
file contents with latin-1 as the `UnicodeDecodeError` fallback, read as
one "page".  `none` content is an `OSError` opening or reading the file,
which propagates. -/
def extract_from_text (content : Option (List Nat)) :
    Except Unit (String × Nat) :=
  match content with
  | none => Except.error ()
  | some bytes =>
    match utf8Decode bytes with
    | some cps => Except.ok (stringOfCodePoints cps, 1)
    | none => Except.ok (latin1String bytes, 1)

/-- Error outcomes of `ExtractTextHandler.execute` before the database
update. -/
inductive ExtractErr where
  | unsupportedFormat (detail : String)
  | ioError
  | pdfFailed (msg : String)
  | documentNotFound (document_id : Int)
deriving Repr, DecidableEq

/-- Dispatch of `ExtractTextHandler.execute` over the mime type and file
suffix, up to and including the extraction itself: PDF extraction
(delegated to `pypdf`, an environment function), declared text files,
and the plain-text fallback for every other type whose bare `except`
converts any failure into the "Unsupported file format" error. -/
def extractDispatch (mime_type : String) (suffix : String)
    (pdfExtract : Except String (String × Nat))
    (content : Option (List Nat)) : Except ExtractErr (String × Nat) :=
  if strContains (asciiLower mime_type) "pdf" ∨ asciiLower suffix = ".pdf" then
    match pdfExtract with
    | Except.ok r => Except.ok r
    | Except.error e => Except.error (ExtractErr.pdfFailed e)
  else if strContains (asciiLower mime_type) "text" ∨
      suffix ∈ [".txt", ".md", ".log"] then
    match extract_from_text content with
    | Except.ok r => Except.ok r
    | Except.error _ => Except.error ExtractErr.ioError
  else
    match extract_from_text content with
    | Except.ok r => Except.ok r
    | Except.error _ => Except.error (ExtractErr.unsupportedFormat mime_type)

/-- Embeds `ExtractTextHandler.execute` after the dispatch: stores the
extracted text and page count on the document and sets status
ANALYZING. -/
def extract_text_execute (mime_type suffix : String)
    (pdfExtract : Except String (String × Nat))
    (content : Option (List Nat)) (db : Db) (document_id : Int) :
    Except ExtractErr (Db × Nat) :=
  match extractDispatch mime_type suffix pdfExtract content with
  | Except.error e => Except.error e
  | Except.ok (extracted_text, page_count) =>
    match findDoc db document_id with
    | none => Except.error (ExtractErr.documentNotFound document_id)
    | some document =>
      let document :=
        { document with
          extracted_text := some extracted_text
          page_count := some page_count
          status := DocStatus.ANALYZING }
      Except.ok (updateDoc db document, extracted_text.length)

/- ===================================================================
   Concrete instances used by the closed witnesses below: a lexical
   canonicaliser standing in for `Path.resolve()` on a symlink-free
   filesystem and a set-of-paths filesystem state.
   =================================================================== -/

/-- Lexical path canonicalisation: drops `.` and empty segments and
lets `..` consume the preceding segment — `Path.resolve()` on a
filesystem without symlinks. -/
def normalizeSegs (segs : List String) : List String :=
  segs.foldl
    (fun acc seg =>
      if seg = "." ∨ seg = "" then acc
      else if seg = ".." then acc.dropLast
      else acc ++ [seg]) []

/-- A minimal filesystem state for witnesses: the set of present paths. -/
def witnessFs : FsOps (List (List String)) :=
  { pathPresent := fun fs p => fs.any (fun q => q = p)
    entryIsFile := fun fs p => fs.any (fun q => q = p)
    entryIsDir := fun _ _ => false
    mkdirParents := fun fs _ => fs
    writeBytes := fun fs p _ => fs ++ [p]
    moveEntry := fun fs src dest =>
      (fs.filter (fun q => q ≠ src)) ++ [dest]
    copyEntry := fun fs _ dest => fs ++ [dest]
    unlinkFile := fun fs p => fs.filter (fun q => q ≠ p)
    removeTree := fun fs p => fs.filter (fun q => q ≠ p)
    readBytes := fun _ _ => []
    listEntries := fun _ _ => [] }

/- ===================================================================
   Concrete fixtures evaluated by the closed theorems below.
   =================================================================== -/

/-- A filesystem state holding one file inside the sandbox. -/
def fsWitness : List (List String) :=
  [["data", "00_inbox", "ok.txt"]]

/-- An ingested plain-text document row as created by the ingest
endpoint. -/
def docExisting : Document :=
  { id := 7
    file_sha256 := "h"
    original_filename := "f.txt"
    mime_type := some "text/plain"
    file_size_bytes := some 3
    inbox_relpath := some "00_inbox/f.txt"
    ingested_relpath := some "01_ingested/h_f.txt"
    status := DocStatus.INGESTED
    extracted_text := none
    page_count := none
    category := none
    suggested_filename := none
    suggested_target_path := none
    classification_confidence := none
    llm_trace := none }

/-- API state holding exactly one document row with hash `"h"`. -/
def apiStateOne : ApiState :=
  { db := { docs := [docExisting], chunks := [] }, queue := emptyQueue }

/-- The queue after the four enqueues of one ingest call for document 1
(priorities 50/100/150/200, payloads chained through `depends_on`). -/
def ingestTraceQueue : QueueState :=
  let q1 := enqueue emptyQueue "a1" "extract_text"
    "\x7b\"document_id\": 1, \"file_path\": \"01_ingested/x\", \"mime_type\": \"text/plain\"\x7d"
    50 (some 1) "t"
  let q2 := enqueue q1 "b2" "chunk_text"
    "\x7b\"document_id\": 1, \"depends_on\": \"a1\"\x7d" 100 (some 1) "t"
  let q3 := enqueue q2 "c3" "embed_chunks"
    "\x7b\"document_id\": 1, \"depends_on\": \"b2\"\x7d" 150 (some 1) "t"
  enqueue q3 "d4" "classify_document"
    "\x7b\"document_id\": 1, \"depends_on\": \"c3\"\x7d" 200 (some 1) "t"

/-- Two queue states with identical sorted sets but different job-hash
stores. -/
def sameZsetA : QueueState :=
  { zset := [{ member := "m1", score := 50 }, { member := "m2", score := 100 }]
    jobs := [] }

/-- Companion state to `sameZsetA` whose hash store differs. -/
def sameZsetB : QueueState :=
  { zset := [{ member := "m1", score := 50 }, { member := "m2", score := 100 }]
    jobs := [("m", { dataJson := "d", status := "COMPLETED", result := none
                     error := none })] }

/-- A document with extracted text awaiting classification. -/
def docForClassify : Document :=
  { docExisting with
    id := 9
    file_sha256 := "h9"
    extracted_text := some "hello world"
    status := DocStatus.ANALYZING }

/-- Store holding only `docForClassify`. -/
def dbClassify : Db :=
  { docs := [docForClassify], chunks := [] }

/-- A PDF document matching the spec's rules-engine example. -/
def docPdf : Document :=
  { docExisting with
    id := 11
    file_sha256 := "hp"
    mime_type := some "application/pdf"
    extracted_text := some "invoice text"
    status := DocStatus.ANALYZING }

/-- Store holding only `docPdf`. -/
def dbPdf : Db :=
  { docs := [docPdf], chunks := [] }

/-- The spec's example rule pair: a PDF rule at priority 1 and a
catch-all at priority 2. -/
def rulesSpecExample : List Rule :=
  [{ id := 1, name := "pdf-rule", priority := 1, is_active := true
     conditions := [Cond.mime_type_contains "pdf"]
     actions := { category := some "Invoice", target_path := none
                  suggested_filename := none, tags := none } },
   { id := 2, name := "catch-all", priority := 2, is_active := true
     conditions := []
     actions := { category := some "Other", target_path := none
                  suggested_filename := none, tags := none } }]

/-- A document whose recorded file size is zero bytes (an empty file). -/
def docSizeZero : Document :=
  { docExisting with
    id := 13
    file_sha256 := "hz"
    file_size_bytes := some 0 }

/-- A document with two paragraphs of extracted text, due for
re-chunking. -/
def docChunkable : Document :=
  { docExisting with
    id := 15
    file_sha256 := "hc"
    extracted_text := some "alpha\n\nbeta"
    status := DocStatus.ANALYZING }

/-- A stale chunk row from an earlier chunking run of document 15. -/
def staleChunk : DocumentChunk :=
  { document_id := 15, chunk_index := 0, chunk_text := "old"
    chunk_tokens := 1, qdrant_point_id := none }

/-- Store with `docChunkable` and its stale chunk. -/
def dbChunk : Db :=
  { docs := [docChunkable], chunks := [staleChunk] }

/-- Embedding environment in which both client libraries imported but
both services refuse connections. -/
def envUnreachable : EmbedEnv :=
  { ollama_available := true
    qdrant_available := true
    ollamaEmbed := fun _ => Except.error "connection refused"
    qdrantUpsert := fun _ _ _ _ => Except.error "connection refused" }

/-- Embedding environment in which the `httpx` import failed. -/
def envNoLib : EmbedEnv :=
  { ollama_available := false
    qdrant_available := true
    ollamaEmbed := fun _ => Except.error "connection refused"
    qdrantUpsert := fun _ _ _ _ => Except.error "connection refused" }

/-- A document with one chunk, about to be embedded. -/
def docEmbed : Document :=
  { docExisting with
    id := 17
    file_sha256 := "he"
    extracted_text := some "alpha"
    status := DocStatus.ANALYZING }

/-- The chunk of `docEmbed`. -/
def embedChunk : DocumentChunk :=
  { document_id := 17, chunk_index := 0, chunk_text := "alpha"
    chunk_tokens := 1, qdrant_point_id := none }

/-- Store with `docEmbed` and its chunk. -/
def dbEmbed : Db :=
  { docs := [docEmbed], chunks := [embedChunk] }

/-- A two-job queue with distinct priorities (witness fixture). -/
def qW : QueueState :=
  { zset := [{ member := "m1", score := 100 }, { member := "m2", score := 50 }]
    jobs := [] }

/-- The state `qW` reaches after one dequeue. -/
def qW1 : QueueState :=
  { zset := [{ member := "m1", score := 100 }], jobs := [] }

/-- The state `qW` reaches after two dequeues. -/
def qW2 : QueueState :=
  { zset := [], jobs := [] }

instance : IsTotal Rule (fun a b => a.priority ≤ b.priority) :=
  ⟨fun a b => le_total a.priority b.priority⟩

instance : IsTrans Rule (fun a b => a.priority ≤ b.priority) :=
  ⟨fun _ _ _ h1 h2 => le_trans h1 h2⟩

/- ===================================================================
   Theorems.
   =================================================================== -/

/-- C1: every relative path whose canonicalised join with the storage
root falls outside the root is rejected by `safe_join` with
`PathTraversalError`, and each storage operation (list, stat, read,
write, move, copy, delete, hash) performs that check before touching the
filesystem, so on a rejected path every operation returns the traversal
error and — the mutating operations returning the successor state only
in their `ok` case — leaves the filesystem state unchanged. -/
theorem storage_sandbox_rejects_outside_paths {σ : Type} (F : FsOps σ)
    (resolve : List String → List String) (sha256hex : List Nat → String)
    (storage_root : List String) (fs : σ) (relpath src : String)
    (content : List Nat) (overwrite : Bool)
    (h : storage_root.isPrefixOf (resolve (joinedPath storage_root relpath))
      = false) :
    safe_join resolve storage_root relpath
      = Except.error (StorageErr.pathTraversal relpath)
    ∧ list_directory F resolve storage_root fs relpath
      = Except.error (StorageErr.pathTraversal relpath)
    ∧ stat_file F resolve storage_root fs relpath
      = Except.error (StorageErr.pathTraversal relpath)
    ∧ read_file F resolve storage_root fs relpath
      = Except.error (StorageErr.pathTraversal relpath)
    ∧ compute_sha256 F resolve sha256hex storage_root fs relpath
      = Except.error (StorageErr.pathTraversal relpath)
    ∧ write_file F resolve storage_root fs relpath content overwrite
      = Except.error (StorageErr.pathTraversal relpath)
    ∧ delete_file F resolve storage_root fs relpath
      = Except.error (StorageErr.pathTraversal relpath)
    ∧ move_file F resolve storage_root fs relpath src overwrite
      = Except.error (StorageErr.pathTraversal relpath)
    ∧ copy_file F resolve storage_root fs relpath src overwrite
      = Except.error (StorageErr.pathTraversal relpath)
    ∧ ((safe_join resolve storage_root src).isOk = true →
        move_file F resolve storage_root fs src relpath overwrite
          = Except.error (StorageErr.pathTraversal relpath))
    ∧ ((safe_join resolve storage_root src).isOk = true →
        copy_file F resolve storage_root fs src relpath overwrite
          = Except.error (StorageErr.pathTraversal relpath)) := by
  have hsj : safe_join resolve storage_root relpath
      = Except.error (StorageErr.pathTraversal relpath) := by
    unfold safe_join
    simp [h]
  refine ⟨hsj, ?_, ?_, ?_, ?_, ?_, ?_, ?_, ?_, ?_, ?_⟩
  · simp [list_directory, hsj]
  · simp [stat_file, hsj]
  · simp [read_file, hsj]
  · simp [compute_sha256, hsj]
  · simp [write_file, hsj]
  · simp [delete_file, hsj]
  · simp [move_file, hsj]
  · simp [copy_file, hsj]
  · intro hok
    cases hs : safe_join resolve storage_root src with
    | error e => rw [hs] at hok; simp [Except.isOk, Except.toBool] at hok
    | ok v => simp [move_file, hs, hsj]
  · intro hok
    cases hs : safe_join resolve storage_root src with
    | error e => rw [hs] at hok; simp [Except.isOk, Except.toBool] at hok
    | ok v => simp [copy_file, hs, hsj]

/-- C1 witness: the sandbox rejection theorem instantiated at the
concrete lexical canonicaliser, root `data`, the escaping path
`../secret` and the in-sandbox source `00_inbox/ok.txt`. -/
theorem storage_sandbox_rejects_outside_paths_witness :
    (["data"].isPrefixOf (normalizeSegs (joinedPath ["data"] "../secret"))
      = false)
    ∧ safe_join normalizeSegs ["data"] "../secret"
      = Except.error (StorageErr.pathTraversal "../secret")
    ∧ write_file witnessFs normalizeSegs ["data"] fsWitness "../secret" [] false
      = Except.error (StorageErr.pathTraversal "../secret")
    ∧ move_file witnessFs normalizeSegs ["data"] fsWitness "00_inbox/ok.txt"
        "../secret" false
      = Except.error (StorageErr.pathTraversal "../secret") :=
  have T := storage_sandbox_rejects_outside_paths witnessFs normalizeSegs
    (fun _ => "") ["data"] fsWitness "../secret" "00_inbox/ok.txt" [] false
    (by decide)
  ⟨by decide, T.1, T.2.2.2.2.2.1, T.2.2.2.2.2.2.2.2.2.1 (by decide)⟩

/-- C10: plain-text extraction is total over file contents — for every
byte sequence `extract_from_text` returns decoded text, with the latin-1
fallback accepting all byte values after a UTF-8 decode failure — so the
"Unsupported file format" branch of the extraction dispatch for unknown
mime types is unreachable while the file's bytes can be read, and is
reached exactly when reading the file itself fails. -/
theorem extract_text_total (mime_type suffix : String) (bytes : List Nat)
    (pdfExtract : Except String (String × Nat))
    (hmime : strContains (asciiLower mime_type) "pdf" = false)
    (hsuffix : asciiLower suffix ≠ ".pdf")
    (htext : strContains (asciiLower mime_type) "text" = false)
    (hsuffix2 : suffix ∉ [".txt", ".md", ".log"]) :
    (extract_from_text (some bytes)).isOk = true
    ∧ (utf8Decode bytes = none →
        extract_from_text (some bytes) = Except.ok (latin1String bytes, 1))
    ∧ (extractDispatch mime_type suffix pdfExtract (some bytes)).isOk = true
    ∧ extractDispatch mime_type suffix pdfExtract none
      = Except.error (ExtractErr.unsupportedFormat mime_type) := by
  have hnopdf : ¬ (strContains (asciiLower mime_type) "pdf" = true
      ∨ asciiLower suffix = ".pdf") := by
    intro hc
    rcases hc with hc | hc
    · rw [hmime] at hc; exact Bool.false_ne_true hc
    · exact hsuffix hc
  have hnotext : ¬ (strContains (asciiLower mime_type) "text" = true
      ∨ suffix ∈ [".txt", ".md", ".log"]) := by
    intro hc
    rcases hc with hc | hc
    · rw [htext] at hc; exact Bool.false_ne_true hc
    · exact hsuffix2 hc
  have hok : (extract_from_text (some bytes)).isOk = true := by
    unfold extract_from_text
    cases hdec : utf8Decode bytes <;> simp [hdec, Except.isOk, Except.toBool]
  refine ⟨hok, ?_, ?_, ?_⟩
  · intro hdec
    simp [extract_from_text, hdec]
  · unfold extractDispatch
    rw [if_neg hnopdf, if_neg hnotext]
    unfold extract_from_text
    cases hdec : utf8Decode bytes <;> simp [hdec, Except.isOk, Except.toBool]
  · unfold extractDispatch
    rw [if_neg hnopdf, if_neg hnotext]
    rfl

/-- C10 witness: the totality theorem at a binary mime type, an unknown
suffix and a byte sequence that is not valid UTF-8. -/
theorem extract_text_total_witness :
    (strContains (asciiLower "application/octet-stream") "pdf" = false
     ∧ asciiLower ".bin" ≠ ".pdf"
     ∧ strContains (asciiLower "application/octet-stream") "text" = false
     ∧ ".bin" ∉ [".txt", ".md", ".log"])
    ∧ ((extract_from_text (some [255, 0])).isOk = true
       ∧ (utf8Decode [255, 0] = none →
          extract_from_text (some [255, 0])
            = Except.ok (latin1String [255, 0], 1))
       ∧ (extractDispatch "application/octet-stream" ".bin"
            (Except.error "no pdf") (some [255, 0])).isOk = true
       ∧ extractDispatch "application/octet-stream" ".bin"
            (Except.error "no pdf") none
          = Except.error (ExtractErr.unsupportedFormat "application/octet-stream")) :=
  ⟨⟨by decide, by decide, by decide, by decide⟩,
   extract_text_total "application/octet-stream" ".bin" [255, 0]
     (Except.error "no pdf") (by decide) (by decide) (by decide) (by decide)⟩

/-- C7 counterexample: the claim's inclusive-bound reading fails on a
document whose recorded size is 0.  `docSizeZero` records
`file_size_bytes = 0`; the minimum-size condition with bound 0 should
pass under `min ≤ size` (0 ≤ 0), but `evaluate_condition` treats the
falsy size 0 as absent and evaluates to non-match. -/
theorem file_size_zero_counterexample :
    docSizeZero.file_size_bytes = some 0
    ∧ ((0 : Int) ≤ 0)
    ∧ evaluate_condition (fun _ _ => false) docSizeZero
        (Cond.file_size_min 0) = false := by
  refine ⟨by decide, by decide, ?_⟩
  decide

/-- C7 amended: for documents whose recorded size is nonzero the
minimum/maximum file-size predicates are inclusive bounds (pass iff
`min ≤ size`, respectively `size ≤ max`); a recorded size of 0 is
treated exactly like an absent size (non-match, Python falsiness), and
conditions referencing an absent or falsy mime type, size or extracted
text evaluate to non-match — `evaluate_condition` being a total
function, without raising an error. -/
theorem evaluate_condition_bounds_amended
    (regexSearch : String → String → Bool) :
    (∀ (doc : Document) (value size : Int),
      doc.file_size_bytes = some size → size ≠ 0 →
      ((evaluate_condition regexSearch doc (Cond.file_size_min value) = true
          ↔ value ≤ size)
       ∧ (evaluate_condition regexSearch doc (Cond.file_size_max value) = true
          ↔ size ≤ value)))
    ∧ (∀ (doc : Document) (value : Int),
        intTruthy doc.file_size_bytes = false →
        evaluate_condition regexSearch doc (Cond.file_size_min value) = false
        ∧ evaluate_condition regexSearch doc (Cond.file_size_max value) = false)
    ∧ (∀ (doc : Document) (value : String),
        strTruthy doc.mime_type = false →
        evaluate_condition regexSearch doc (Cond.mime_type_contains value) = false)
    ∧ (∀ (doc : Document) (value : String),
        doc.mime_type = none →
        evaluate_condition regexSearch doc (Cond.mime_type value) = false)
    ∧ (∀ (doc : Document) (value : String),
        strTruthy doc.extracted_text = false →
        evaluate_condition regexSearch doc (Cond.text_contains value) = false) := by
  refine ⟨?_, ?_, ?_, ?_, ?_⟩
  · intro doc value size hsize hnz
    have htruthy : intTruthy doc.file_size_bytes = true := by
      rw [hsize]
      simp [intTruthy, hnz]
    constructor
    · unfold evaluate_condition
      rw [htruthy, hsize]
      simp [Option.getD, not_lt]
    · unfold evaluate_condition
      rw [htruthy, hsize]
      simp [Option.getD, not_lt]
  · intro doc value hfalsy
    constructor <;> (unfold evaluate_condition; rw [hfalsy]; simp)
  · intro doc value hfalsy
    unfold evaluate_condition
    rw [hfalsy]
    simp
  · intro doc value hnone
    unfold evaluate_condition
    simp [hnone]
  · intro doc value hfalsy
    unfold evaluate_condition
    rw [hfalsy]
    simp

/-- C7 witness: the amended theorem applied to a document of recorded
size 3 with bound 2, to a document with size 0, and to mime/text
conditions on documents lacking those fields. -/
theorem evaluate_condition_bounds_amended_witness :
    (docExisting.file_size_bytes = some 3 ∧ (3 : Int) ≠ 0
     ∧ ((evaluate_condition (fun _ _ => false) docExisting
          (Cond.file_size_min 2) = true ↔ (2 : Int) ≤ 3)
        ∧ (evaluate_condition (fun _ _ => false) docExisting
            (Cond.file_size_max 2) = true ↔ (3 : Int) ≤ 2)))
    ∧ (intTruthy docSizeZero.file_size_bytes = false
       ∧ evaluate_condition (fun _ _ => false) docSizeZero
          (Cond.file_size_min 1) = false
       ∧ evaluate_condition (fun _ _ => false) docSizeZero
          (Cond.file_size_max 1) = false)
    ∧ (strTruthy docExisting.extracted_text = false
       ∧ evaluate_condition (fun _ _ => false) docExisting
          (Cond.text_contains "x") = false) :=
  have T := evaluate_condition_bounds_amended (fun _ _ => false)
  ⟨⟨by decide, by decide, T.1 docExisting 2 3 (by decide) (by decide)⟩,
   ⟨by decide, T.2.1 docSizeZero 1 (by decide)⟩,
   ⟨by decide, T.2.2.2.2 docExisting "x" (by decide)⟩⟩

/-- C5 counterexample: with no matching rule and no LLM result, the
worker's classification handler does not apply the claimed fixed
fallback — it does not even persist NEEDS_REVIEW.  Evaluating
`document.analyzed_at` via `db.func` raises `AttributeError` before
`db.commit()`, so the handler errors, the job fails, and no document
field (category, confidence or status) is written to the store. -/
theorem classify_fallback_counterexample :
    classify_document_execute (fun _ _ => false) [] none dbClassify 9
      = Except.error "AttributeError: 'Session' object has no attribute 'func'"
    ∧ (classify_document_execute (fun _ _ => false) [] none dbClassify 9).isOk
      = false := by
  exact ⟨rfl, rfl⟩

/-- C5 amended: when no rule matches and the LLM classifier yields no
result, `ClassifyDocumentHandler.execute` enters its fallback branch,
sets status NEEDS_REVIEW only on the in-memory object, and then raises
`AttributeError` ("'Session' object has no attribute 'func'") while
computing `analyzed_at`, before `db.commit()` — the job fails and the
document row is unchanged.  The handler never sets "Uncategorized" or
confidence 0.0 on the document; that fixed fallback is applied only by
the API classify endpoint. -/
theorem classify_fallback_amended (regexSearch : String → String → Bool)
    (rules : List Rule) (db : Db) (document_id : Int) (doc : Document)
    (hfind : findDoc db document_id = some doc)
    (hnorule : (rules_classify regexSearch rules doc).2 = none) :
    classify_document_execute regexSearch rules none db document_id
      = Except.error "AttributeError: 'Session' object has no attribute 'func'" := by
  unfold classify_document_execute
  rw [hfind]
  simp [hnorule, sessionFuncNow]

/-- C5 witness: the amended theorem at the concrete one-document store
with no rules and no LLM result. -/
theorem classify_fallback_amended_witness :
    findDoc dbClassify 9 = some docForClassify
    ∧ (rules_classify (fun _ _ => false) [] docForClassify).2 = none
    ∧ classify_document_execute (fun _ _ => false) [] none dbClassify 9
      = Except.error "AttributeError: 'Session' object has no attribute 'func'" :=
  ⟨by decide, rfl,
   classify_fallback_amended (fun _ _ => false) [] dbClassify 9 docForClassify
     (by decide) rfl⟩


/-- C8 counterexample: with both client libraries imported but the
embedding service refusing connections, `EmbedChunksHandler.execute`
raises instead of skipping — the job fails (no successful result, so no
status update to ANALYZED), refuting the claim that an unreachable
service leads to a successfully completed, skipped job. -/
theorem embed_unreachable_counterexample :
    envUnreachable.ollama_available = true
    ∧ envUnreachable.qdrant_available = true
    ∧ embed_chunks_execute envUnreachable dbEmbed 17
      = Except.error "Embedding generation failed: connection refused" := by
  exact ⟨rfl, rfl, rfl⟩

/-- C8 amended: the skip happens when a client library (`httpx` or
`qdrant_client`) failed to import at construction time — then the job
completes successfully with `skipped = true`, zero embeddings, and the
document's status set to ANALYZED.  (When both libraries are present but
a service is unreachable at call time, the handler raises and the job
fails; see the counterexample.) -/
theorem embed_skip_amended (env : EmbedEnv) (db : Db) (document_id : Int)
    (h : env.ollama_available = false ∨ env.qdrant_available = false) :
    (embed_chunks_execute env db document_id).isOk = true
    ∧ (∀ doc : Document, findDoc db document_id = some doc →
        embed_chunks_execute env db document_id
          = Except.ok (updateDoc db { doc with status := DocStatus.ANALYZED },
              { embedded_count := 0, skipped := true })) := by
  have hcond : (¬ env.ollama_available = true ∨ ¬ env.qdrant_available = true) := by
    rcases h with h | h
    · left; simp [h]
    · right; simp [h]
  constructor
  · unfold embed_chunks_execute
    rw [if_pos hcond]
    cases hd : findDoc db document_id <;>
      simp [hd, Except.isOk, Except.toBool]
  · intro doc hdoc
    unfold embed_chunks_execute
    rw [if_pos hcond, hdoc]

/-- C8 witness: the amended theorem at the one-chunk store with the
`httpx` import unavailable. -/
theorem embed_skip_amended_witness :
    (envNoLib.ollama_available = false ∨ envNoLib.qdrant_available = false)
    ∧ (embed_chunks_execute envNoLib dbEmbed 17).isOk = true
    ∧ embed_chunks_execute envNoLib dbEmbed 17
      = Except.ok (updateDoc dbEmbed { docEmbed with status := DocStatus.ANALYZED },
          { embedded_count := 0, skipped := true }) :=
  have T := embed_skip_amended envNoLib dbEmbed 17 (Or.inl rfl)
  ⟨Or.inl rfl, T.1, T.2 docEmbed (by decide)⟩

/-- Irreflexivity of the byte order. -/
theorem charListLt_irrefl (l : List Char) : charListLt l l = false := by
  induction l with
  | nil => rfl
  | cons a as ih => simp [charListLt, ih]

/-- Transitivity of the byte order. -/
theorem charListLt_trans : ∀ (a b c : List Char),
    charListLt a b = true → charListLt b c = true → charListLt a c = true
  | [], [], _, h1, _ => by simp [charListLt] at h1
  | [], _ :: _, [], _, h2 => by simp [charListLt] at h2
  | [], _ :: _, _ :: _, _, _ => by simp [charListLt]
  | _ :: _, [], _, h1, _ => by simp [charListLt] at h1
  | _ :: _, _ :: _, [], _, h2 => by simp [charListLt] at h2
  | a :: as, b :: bs, c :: cs, h1, h2 => by
    simp only [charListLt] at h1 h2 ⊢
    split_ifs at h1 h2 ⊢ <;>
      first
        | rfl
        | omega
        | exact charListLt_trans as bs cs h1 h2

/-- Two lists neither of which precedes the other are equal. -/
theorem charListLt_conn : ∀ (a b : List Char),
    charListLt a b = false → charListLt b a = false → a = b
  | [], [], _, _ => rfl
  | [], _ :: _, h1, _ => by simp [charListLt] at h1
  | _ :: _, [], _, h2 => by simp [charListLt] at h2
  | a :: as, b :: bs, h1, h2 => by
    simp only [charListLt] at h1 h2
    split_ifs at h1 h2 <;>
      first
        | simp at h1
        | simp at h2
        | (have hn : a.toNat = b.toNat := by omega
           have hchar : a = b := by
             have hv : a.val.toBitVec = b.val.toBitVec := by
               apply BitVec.eq_of_toNat_eq
               exact hn
             cases a with
             | mk av ah =>
               cases b with
               | mk bv bh =>
                 cases av
                 cases bv
                 simp only at hv
                 simp [hv]
           have htail : as = bs := charListLt_conn as bs h1 h2
           rw [hchar, htail])

/-- Unfolding of the Boolean element order into its proposition. -/
theorem zBefore_true_iff (a b : ZEntry) :
    zBefore a b = true ↔
      (a.score < b.score
       ∨ (a.score = b.score
          ∧ charListLt a.member.toList b.member.toList = true)) := by
  simp [zBefore]

/-- No element strictly precedes itself. -/
theorem zBefore_irrefl (e : ZEntry) : zBefore e e = false := by
  rw [Bool.eq_false_iff]
  intro hc
  rcases (zBefore_true_iff e e).mp hc with h | ⟨_, h⟩
  · omega
  · rw [charListLt_irrefl] at h
    exact Bool.false_ne_true h

/-- Transitivity of the element order. -/
theorem zBefore_trans {a b c : ZEntry} (h1 : zBefore a b = true)
    (h2 : zBefore b c = true) : zBefore a c = true := by
  rcases (zBefore_true_iff a b).mp h1 with hs1 | ⟨he1, hm1⟩ <;>
    rcases (zBefore_true_iff b c).mp h2 with hs2 | ⟨he2, hm2⟩
  · exact (zBefore_true_iff a c).mpr (Or.inl (by omega))
  · exact (zBefore_true_iff a c).mpr (Or.inl (by omega))
  · exact (zBefore_true_iff a c).mpr (Or.inl (by omega))
  · exact (zBefore_true_iff a c).mpr
      (Or.inr ⟨by omega, charListLt_trans _ _ _ hm1 hm2⟩)

/-- Two elements neither of which precedes the other agree in score and
member. -/
theorem zBefore_conn {a b : ZEntry} (h1 : zBefore a b = false)
    (h2 : zBefore b a = false) :
    a.score = b.score ∧ a.member.toList = b.member.toList := by
  rw [Bool.eq_false_iff, ne_eq, zBefore_true_iff] at h1 h2
  push_neg at h1 h2
  obtain ⟨hs1, hm1⟩ := h1
  obtain ⟨hs2, hm2⟩ := h2
  have hs : a.score = b.score := by omega
  refine ⟨hs, charListLt_conn _ _ ?_ ?_⟩
  · rw [← Bool.not_eq_true]
    exact hm1 hs
  · rw [← Bool.not_eq_true]
    exact hm2 hs.symm

/-- From `a` before `c` and `b` not before `c`, `a` is before `b`. -/
theorem zBefore_of_before_of_not_before {a b c : ZEntry}
    (h1 : zBefore a c = true) (h2 : zBefore b c = false) :
    zBefore a b = true := by
  by_cases hab : zBefore a b = true
  · exact hab
  · exfalso
    by_cases hba : zBefore b a = true
    · have := zBefore_trans hba h1
      rw [h2] at this
      exact Bool.false_ne_true this
    · rw [Bool.not_eq_true] at hab hba
      obtain ⟨hs, hm⟩ := zBefore_conn hab hba
      have hbc : zBefore b c = true := by
        rcases (zBefore_true_iff a c).mp h1 with h | ⟨h, hm1⟩
        · exact (zBefore_true_iff b c).mpr (Or.inl (by omega))
        · refine (zBefore_true_iff b c).mpr (Or.inr ⟨by omega, ?_⟩)
          rw [← hm]
          exact hm1
      rw [h2] at hbc
      exact Bool.false_ne_true hbc


/-- The fold inside `zminEntry` returns one of the candidates. -/
theorem zfold_mem (es : List ZEntry) (e : ZEntry) :
    es.foldl (fun m x => if zBefore x m then x else m) e ∈ e :: es := by
  induction es generalizing e with
  | nil => simp
  | cons a tl ih =>
    simp only [List.foldl_cons]
    by_cases hb : zBefore a e = true
    · rw [if_pos hb]
      rcases List.mem_cons.mp (ih a) with h | h
      · rw [h]; simp
      · exact List.mem_cons.mpr (Or.inr (List.mem_cons.mpr (Or.inr h)))
    · rw [if_neg hb]
      rcases List.mem_cons.mp (ih e) with h | h
      · rw [h]; simp
      · exact List.mem_cons.mpr (Or.inr (List.mem_cons.mpr (Or.inr h)))

/-- No candidate strictly precedes the fold inside `zminEntry`. -/
theorem zfold_min (es : List ZEntry) (e : ZEntry) :
    ∀ x ∈ e :: es,
      zBefore x (es.foldl (fun m x => if zBefore x m then x else m) e)
        = false := by
  induction es generalizing e with
  | nil =>
    intro x hx
    have hx' : x = e := by simpa using hx
    simp only [List.foldl_nil]
    rw [hx']
    exact zBefore_irrefl e
  | cons a tl ih =>
    intro x hx
    simp only [List.foldl_cons]
    by_cases hb : zBefore a e = true
    · rw [if_pos hb]
      rcases List.mem_cons.mp hx with h | hx'
      · rw [h]
        have haf := ih a a (List.mem_cons_self a tl)
        rw [Bool.eq_false_iff]
        intro hef
        have := zBefore_trans hb hef
        rw [haf] at this
        exact Bool.false_ne_true this
      · exact ih a x hx'
    · rw [if_neg hb]
      rcases List.mem_cons.mp hx with h | hx'
      · rw [h]
        exact ih e e (List.mem_cons_self e tl)
      · rcases List.mem_cons.mp hx' with h | hx''
        · rw [h]
          have hef := ih e e (List.mem_cons_self e tl)
          rw [Bool.eq_false_iff]
          intro haf
          have := zBefore_of_before_of_not_before haf hef
          rw [Bool.not_eq_true] at hb
          rw [hb] at this
          exact Bool.false_ne_true this
        · exact ih e x (List.mem_cons.mpr (Or.inr hx''))

/-- The popped element belongs to the sorted set. -/
theorem zminEntry_mem {q : List ZEntry} {e : ZEntry}
    (h : zminEntry q = some e) : e ∈ q := by
  cases q with
  | nil => simp [zminEntry] at h
  | cons a es =>
    simp only [zminEntry, Option.some.injEq] at h
    have := zfold_mem es a
    rw [h] at this
    exact this

/-- No element of the sorted set strictly precedes the popped one. -/
theorem zminEntry_min {q : List ZEntry} {e : ZEntry}
    (h : zminEntry q = some e) : ∀ x ∈ q, zBefore x e = false := by
  cases q with
  | nil => simp [zminEntry] at h
  | cons a es =>
    simp only [zminEntry, Option.some.injEq] at h
    intro x hx
    have := zfold_min es a x hx
    rw [h] at this
    exact this


set_option maxRecDepth 100000 in
/-- C2 counterexample: two jobs enqueued with equal priority 100 are not
dequeued first-in-first-out.  The job with id "b" is enqueued first and
the job with id "a" second, yet `dequeue` returns "a" first: Redis
breaks sorted-set score ties by lexicographic member order, and the
member begins with the serialised random job id. -/
theorem dequeue_fifo_counterexample :
    (dequeue (enqueue
        (enqueue emptyQueue "b" "chunk_text" "\x7b\"document_id\": 1\x7d"
          100 (some 1) "t0")
        "a" "chunk_text" "\x7b\"document_id\": 2\x7d" 100 (some 2) "t1")).map
      (fun p => extractJobId p.1.member) = some "a"
    ∧ ((dequeue (enqueue
        (enqueue emptyQueue "b" "chunk_text" "\x7b\"document_id\": 1\x7d"
          100 (some 1) "t0")
        "a" "chunk_text" "\x7b\"document_id\": 2\x7d" 100 (some 2) "t1")).bind
      (fun p => dequeue p.2)).map (fun p => extractJobId p.1.member)
      = some "b" := by
  exact ⟨by decide, by decide⟩

/-- C2 amended: repeated dequeue returns jobs in ascending numeric
priority; among jobs of equal priority the tie is broken by the
lexicographic byte order of the serialised job member (in effect the
random job id), not by insertion order. -/
theorem dequeue_priority_order (st st1 st2 : QueueState) (e1 e2 : ZEntry)
    (h1 : dequeue st = some (e1, st1)) (h2 : dequeue st1 = some (e2, st2)) :
    e1.score ≤ e2.score
    ∧ (e1.score = e2.score →
        charListLt e2.member.toList e1.member.toList = false) := by
  unfold dequeue at h1 h2
  cases hb1 : bzpopmin st.zset with
  | none => rw [hb1] at h1; exact absurd h1 (by simp)
  | some p1 =>
    rw [hb1] at h1
    cases hb2 : bzpopmin st1.zset with
    | none => rw [hb2] at h2; exact absurd h2 (by simp)
    | some p2 =>
      rw [hb2] at h2
      simp only [Option.some.injEq] at h1 h2
      have he1 : p1.1 = e1 := congrArg Prod.fst h1
      have hst1 : ({ zset := p1.2, jobs := setJobStatus st.jobs (extractJobId p1.1.member) "RUNNING" } : QueueState) = st1 := congrArg Prod.snd h1
      have he2 : p2.1 = e2 := congrArg Prod.fst h2
      unfold bzpopmin at hb1 hb2
      cases hm1 : zminEntry st.zset with
      | none => rw [hm1] at hb1; exact absurd hb1 (by simp)
      | some m1 =>
        rw [hm1] at hb1
        cases hm2 : zminEntry st1.zset with
        | none => rw [hm2] at hb2; exact absurd hb2 (by simp)
        | some m2 =>
          rw [hm2] at hb2
          simp only [Option.some.injEq] at hb1 hb2
          have hm1e : m1 = e1 := by rw [← he1, ← hb1]
          have hm2e : m2 = e2 := by rw [← he2, ← hb2]
          have hmem2 : e2 ∈ st1.zset := by
            rw [← hm2e]
            exact zminEntry_mem hm2
          have hmem2s : e2 ∈ st.zset := by
            have hz : st1.zset = zremMember st.zset m1.member := by
              rw [← hst1]
              have hp12 : p1.2 = zremMember st.zset m1.member :=
                congrArg Prod.snd hb1.symm
              rw [hp12]
            rw [hz] at hmem2
            exact List.mem_of_mem_filter hmem2
          have hnb : zBefore e2 e1 = false := by
            rw [← hm1e]
            exact zminEntry_min hm1 e2 hmem2s
          rw [Bool.eq_false_iff, ne_eq, zBefore_true_iff] at hnb
          push_neg at hnb
          obtain ⟨hs, hm⟩ := hnb
          refine ⟨by omega, fun heq => ?_⟩
          rw [← Bool.not_eq_true]
          exact hm heq.symm

set_option maxRecDepth 100000 in
/-- C2 witness: the ordering theorem applied to a concrete two-job
queue; the lower score 50 is popped before 100. -/
theorem dequeue_priority_order_witness :
    dequeue qW = some ({ member := "m2", score := 50 }, qW1)
    ∧ dequeue qW1 = some ({ member := "m1", score := 100 }, qW2)
    ∧ ((50 : Int) ≤ 100
       ∧ ((50 : Int) = 100 →
          charListLt "m1".toList "m2".toList = false)) :=
  ⟨by decide, by decide,
   dequeue_priority_order qW qW1 qW2
     { member := "m2", score := 50 } { member := "m1", score := 100 }
     (by decide) (by decide)⟩


set_option maxRecDepth 1000000 in
/-- C3: which job `dequeue` returns is a function of the priority
structure alone — two backends with identical sorted sets yield the same
popped job irrespective of their job-status stores — and on the concrete
four-job ingest trace the chunk_text job (whose payload names the
extract job "a1" in `depends_on`) is dequeued while "a1" is RUNNING, not
COMPLETED. -/
theorem dequeue_ignores_depends_on :
    (∀ st st' : QueueState, st.zset = st'.zset →
      (dequeue st).map (fun p => p.1) = (dequeue st').map (fun p => p.1))
    ∧ (dequeue ingestTraceQueue).map (fun p => extractJobId p.1.member)
      = some "a1"
    ∧ ((dequeue ingestTraceQueue).bind (fun p => dequeue p.2)).map
        (fun p => (extractJobId p.1.member, dependsOnOf p.1.member))
      = some ("b2", some "a1")
    ∧ ((dequeue ingestTraceQueue).bind (fun p => dequeue p.2)).map
        (fun p => jobStatusOf p.2 "a1")
      = some (some "RUNNING")
    ∧ ("RUNNING" : String) ≠ "COMPLETED" := by
  refine ⟨?_, by decide, by decide, by decide, by decide⟩
  intro st st' h
  unfold dequeue
  rw [h]
  cases hb : bzpopmin st'.zset with
  | none => simp
  | some p => simp

/-- C3 witness: the determinacy conjunct applied to two concrete states
sharing a sorted set but holding different job-status stores. -/
theorem dequeue_ignores_depends_on_witness :
    (dequeue sameZsetA).map (fun p => p.1)
      = (dequeue sameZsetB).map (fun p => p.1) :=
  dequeue_ignores_depends_on.1 sameZsetA sameZsetB rfl

set_option maxRecDepth 100000 in
/-- C4 counterexample: a duplicate-hash ingest request with
`skip_duplicate_check = true` does not report the existing document's
id — it fails with HTTP 500 when the UNIQUE(file_sha256) constraint
rejects the insert (the state, including the row table, is left
unchanged). -/
theorem ingest_duplicate_counterexample :
    (ingest_document apiStateOne "00_inbox/g.txt" true (Except.ok "h")
        "g.txt" (some 3) (some "text/plain") false 8 ("j1", "j2", "j3", "j4")
        "t").1
      = IngestOutcome.httpError 500
    ∧ (ingest_document apiStateOne "00_inbox/g.txt" true (Except.ok "h")
        "g.txt" (some 3) (some "text/plain") false 8 ("j1", "j2", "j3", "j4")
        "t").2
      = apiStateOne
    ∧ docExisting.file_sha256 = "h" := by
  exact ⟨by decide, by decide, rfl⟩

/-- C4 amended: when the computed hash matches an existing row, ingest
never adds a row — the whole state is returned unchanged — and, when
`skip_duplicate_check` is false and the path lies in the inbox, it
reports the existing document's id in a DUPLICATE response.  With
`skip_duplicate_check = true` the request instead fails (storage
conflict or unique-constraint violation) without reporting the id. -/
theorem ingest_duplicate_amended (st : ApiState) (inbox_path : String)
    (skip_duplicate_check : Bool) (sha statName : String)
    (statSize : Option Int) (statMime : Option String) (destPresent : Bool)
    (newId : Int) (jobIds : String × String × String × String) (now : String)
    (doc : Document)
    (hfind : st.db.docs.find? (fun d => d.file_sha256 = sha) = some doc) :
    ((ingest_document st inbox_path skip_duplicate_check (Except.ok sha)
        statName statSize statMime destPresent newId jobIds now).2 = st)
    ∧ (strStartsWith inbox_path "00_inbox/" = true →
       skip_duplicate_check = false →
       (ingest_document st inbox_path skip_duplicate_check (Except.ok sha)
           statName statSize statMime destPresent newId jobIds now).1
         = IngestOutcome.ok (some doc.id) "DUPLICATE" true (some doc.id) sha) := by
  constructor
  · unfold ingest_document
    dsimp only
    rw [hfind]
    split_ifs <;> rfl
  · intro hp hskip
    unfold ingest_document
    dsimp only
    rw [hfind, hskip]
    simp [hp]

/-- C4 witness: the amended theorem at the concrete one-row store with
`skip_duplicate_check = false`. -/
theorem ingest_duplicate_amended_witness :
    apiStateOne.db.docs.find? (fun d => d.file_sha256 = "h") = some docExisting
    ∧ ((ingest_document apiStateOne "00_inbox/f.txt" false (Except.ok "h")
          "f.txt" (some 3) (some "text/plain") false 8 ("j1", "j2", "j3", "j4")
          "t").2 = apiStateOne)
    ∧ (ingest_document apiStateOne "00_inbox/f.txt" false (Except.ok "h")
          "f.txt" (some 3) (some "text/plain") false 8 ("j1", "j2", "j3", "j4")
          "t").1
      = IngestOutcome.ok (some docExisting.id) "DUPLICATE" true
          (some docExisting.id) "h" :=
  have T := ingest_duplicate_amended apiStateOne "00_inbox/f.txt" false "h"
    "f.txt" (some 3) (some "text/plain") false 8 ("j1", "j2", "j3", "j4") "t"
    docExisting (by decide)
  ⟨by decide, T.1, T.2 (by decide) rfl⟩

/-- Characterisation of the rules-engine evaluation loop: its outcome is
the first rule (in list order) whose conditions all hold, with that
rule's actions applied; rules after the first match play no part. -/
theorem rules_classify_loop_spec (regexSearch : String → String → Bool)
    (doc : Document) (rs : List Rule) :
    rules_classify_loop regexSearch doc rs
      = match rs.find? (fun r => evaluate_rule regexSearch doc r) with
        | none => (doc, none)
        | some r =>
          ((apply_actions doc r.actions).1,
           some { rule_id := r.id, rule_name := r.name, priority := r.priority
                  changes := (apply_actions doc r.actions).2 }) := by
  induction rs with
  | nil => rfl
  | cons r rs ih =>
    by_cases h : evaluate_rule regexSearch doc r = true
    · rw [List.find?_cons_of_pos _ h]
      simp [rules_classify_loop, h]
    · rw [Bool.not_eq_true] at h
      rw [List.find?_cons_of_neg _ (by simp [h])]
      simp only [rules_classify_loop, h]
      rw [if_neg (by simp)]
      exact ih

/-- C6: rule evaluation considers only active rules, in ascending
priority-number order, and the first rule whose conditions all match has
its actions applied with no later rule consulted (the engine's result is
a function of the first match in the sorted active list) — but the
handler's rules branch, which assigns confidence exactly 1.0 and status
ANALYZED on the in-memory document as its own comments state, raises
`AttributeError` evaluating `db.func` before `db.commit()`: at the
spec's example rule match (an active priority-1 PDF rule matching an
`application/pdf` document) the job fails instead of committing
confidence 1.0 and status ANALYZED. -/
theorem rules_first_match (regexSearch : String → String → Bool)
    (rules : List Rule) (doc : Document) :
    rules_classify regexSearch rules doc
      = rules_classify regexSearch (rules.filter (fun r => r.is_active)) doc
    ∧ List.Sorted (fun a b : Rule => a.priority ≤ b.priority)
        (get_active_rules rules)
    ∧ (get_active_rules rules).all (fun r => r.is_active) = true
    ∧ (rules_classify regexSearch rules doc
        = match (get_active_rules rules).find?
            (fun r => evaluate_rule regexSearch doc r) with
          | none => (doc, none)
          | some r =>
            ((apply_actions doc r.actions).1,
             some { rule_id := r.id, rule_name := r.name
                    priority := r.priority
                    changes := (apply_actions doc r.actions).2 }))
    ∧ (rules_classify (fun _ _ => false) rulesSpecExample docPdf).2
      = some { rule_id := 1, rule_name := "pdf-rule", priority := 1
               changes := { category := some "Invoice", target_path := none
                            suggested_filename := none, tags := none } }
    ∧ classify_document_execute (fun _ _ => false) rulesSpecExample none
        dbPdf 11
      = Except.error "AttributeError: 'Session' object has no attribute 'func'" := by
  refine ⟨?_, ?_, ?_, ?_, by decide, rfl⟩
  · unfold rules_classify get_active_rules
    simp [List.filter_filter]
  · unfold get_active_rules
    exact List.sorted_insertionSort _ _
  · rw [List.all_eq_true]
    intro r hr
    unfold get_active_rules at hr
    rw [List.mem_insertionSort] at hr
    exact (List.mem_filter.mp hr).2
  · unfold rules_classify
    exact rules_classify_loop_spec regexSearch doc (get_active_rules rules)


/-- C9: on a document with truthy extracted text, the chunking handler
succeeds, returns `chunks_count` equal to the number of produced chunks,
and leaves the document's chunk rows exactly equal to the newly produced
set — the stale rows are deleted, the new rows are indexed 0..N−1 by
`enumerate` (so in particular the indices are `List.range N`, without
duplicates). -/
theorem chunk_text_replaces_chunks (db : Db) (document_id : Int)
    (doc : Document) (db1 : Db) (res : ChunkResult)
    (hfind : findDoc db document_id = some doc)
    (htext : strTruthy doc.extracted_text = true)
    (hrun : chunk_text_execute db document_id = Except.ok (db1, res)) :
    res.chunks_count = (split_into_chunks (doc.extracted_text.getD "")).length
    ∧ chunksOf db1 document_id
      = (split_into_chunks (doc.extracted_text.getD "")).enum.map (fun p =>
          ({ document_id := document_id, chunk_index := p.1
             chunk_text := p.2, chunk_tokens := countWords p.2.toList
             qdrant_point_id := none } : DocumentChunk))
    ∧ (chunksOf db1 document_id).map (fun c => c.chunk_index)
      = List.range res.chunks_count := by
  unfold chunk_text_execute at hrun
  rw [hfind] at hrun
  dsimp only at hrun
  rw [if_neg (by simp [htext])] at hrun
  simp only [Except.ok.injEq, Prod.mk.injEq] at hrun
  obtain ⟨hdb, hres⟩ := hrun
  have hcount : res.chunks_count
      = (split_into_chunks (doc.extracted_text.getD "")).length := by
    rw [← hres]
  have hchunks : chunksOf db1 document_id
      = (split_into_chunks (doc.extracted_text.getD "")).enum.map (fun p =>
          ({ document_id := document_id, chunk_index := p.1
             chunk_text := p.2, chunk_tokens := countWords p.2.toList
             qdrant_point_id := none } : DocumentChunk)) := by
    rw [← hdb]
    unfold chunksOf updateDoc
    dsimp only
    rw [List.filter_append]
    have hrem : (db.chunks.filter
        (fun c => c.document_id ≠ document_id)).filter
          (fun c => c.document_id = document_id) = [] := by
      rw [List.filter_eq_nil_iff]
      intro a ha
      have := (List.mem_filter.mp ha).2
      simp only [ne_eq, decide_not, Bool.not_eq_eq_eq_not, Bool.not_true,
        decide_eq_false_iff_not] at this
      simp [this]
    have hnew : ((split_into_chunks (doc.extracted_text.getD "")).enum.map
        (fun p => ({ document_id := document_id, chunk_index := p.1
                     chunk_text := p.2
                     chunk_tokens := countWords p.2.toList
                     qdrant_point_id := none } : DocumentChunk))).filter
          (fun c => c.document_id = document_id)
        = (split_into_chunks (doc.extracted_text.getD "")).enum.map
            (fun p => ({ document_id := document_id, chunk_index := p.1
                         chunk_text := p.2
                         chunk_tokens := countWords p.2.toList
                         qdrant_point_id := none } : DocumentChunk)) := by
      rw [List.filter_eq_self]
      intro a ha
      obtain ⟨p, _, hp⟩ := List.mem_map.mp ha
      rw [← hp]
      simp
    rw [hrem, hnew]
    rfl
  refine ⟨hcount, hchunks, ?_⟩
  rw [hchunks, hcount, List.map_map]
  have : ((fun c : DocumentChunk => c.chunk_index) ∘ (fun p : Nat × String =>
      ({ document_id := document_id, chunk_index := p.1
         chunk_text := p.2, chunk_tokens := countWords p.2.toList
         qdrant_point_id := none } : DocumentChunk))) = Prod.fst := by
    funext p
    rfl
  rw [this, List.enum_map_fst]

/-- C9 witness: re-chunking document 15 (text "alpha\n\nbeta", one stale
chunk row) yields one chunk indexed 0 and exactly replaces the stale
row. -/
theorem chunk_text_replaces_chunks_witness :
    findDoc dbChunk 15 = some docChunkable
    ∧ strTruthy docChunkable.extracted_text = true
    ∧ chunk_text_execute dbChunk 15
      = Except.ok
          ({ docs := [{ docChunkable with status := DocStatus.ANALYZING }]
             chunks := [{ document_id := 15, chunk_index := 0
                          chunk_text := "alpha\n\nbeta", chunk_tokens := 2
                          qdrant_point_id := none }] },
           { chunks_count := 1, total_chars := 11 })
    ∧ ({ chunks_count := 1, total_chars := 11 : ChunkResult }).chunks_count
      = (split_into_chunks (docChunkable.extracted_text.getD "")).length
    ∧ (chunksOf
        { docs := [{ docChunkable with status := DocStatus.ANALYZING }]
          chunks := [{ document_id := 15, chunk_index := 0
                       chunk_text := "alpha\n\nbeta", chunk_tokens := 2
                       qdrant_point_id := none }] } 15).map
        (fun c => c.chunk_index)
      = List.range 1 :=
  have T := chunk_text_replaces_chunks dbChunk 15 docChunkable
    { docs := [{ docChunkable with status := DocStatus.ANALYZING }]
      chunks := [{ document_id := 15, chunk_index := 0
                   chunk_text := "alpha\n\nbeta", chunk_tokens := 2
                   qdrant_point_id := none }] }
    { chunks_count := 1, total_chars := 11 }
    (by decide) (by decide) rfl
  ⟨by decide, by decide, rfl, T.1, T.2.2⟩
